import Mathlib

/-!
Verification of the Loopai execution/validation/versioning core.

Shallow embedding of the Python sources:
  * `src/loopai/executor/program_executor.py`  (ProgramExecutor)
  * `src/loopai/sampler/random_sampler.py`     (RandomSampler)
  * `src/loopai/validator/comparison_engine.py` (ComparisonEngine)
  * `src/loopai/runtime/artifact_cache.py`     (ArtifactCache)
  * `src/loopai/runtime/dataset_manager.py`    (DatasetManager)
  * `src/loopai/models.py`                     (data models)

Python floats are modelled as rationals, UUIDs as naturals, dicts as
association lists.  The semantics of Python's `compile`/`exec` on an
arbitrary source string cannot be embedded; it is abstracted as a
parameter `sem : String → CompileResult` mapping a source text to the
behaviour of its compiled module (possibly raising, possibly diverging).
All executor control flow around that parameter is translated directly
from the source.
-/

namespace Loopai

/-- ASCII single-quote, used to build Python error-message literals. -/
def sq : String := String.singleton (Char.ofNat 39)

/-- ASCII left brace, used by `pyStrOfDict`. -/
def lbr : String := String.singleton (Char.ofNat 123)

/-- ASCII right brace, used by `pyStrOfDict`. -/
def rbr : String := String.singleton (Char.ofNat 125)

/-- A Python value stored in an input/output map (model: strings and ints
suffice for the behaviours the claims quantify over). -/
inductive PyVal where
  | str (s : String)
  | int (n : Int)
deriving DecidableEq, Repr

/-- Python `str(v)`. -/
def pyStrOfVal : PyVal → String
  | .str s => s
  | .int n => toString n

/-- Python `repr(v)` as it appears inside `str(dict)`. -/
def pyReprOfVal : PyVal → String
  | .str s => sq ++ s ++ sq
  | .int n => toString n

/-- A Python dict with string keys, modelled as an association list
(first binding wins, mirroring unique dict keys). -/
abbrev PyDict := List (String × PyVal)

/-- Python `d.get(k, default)`. -/
def dictGet (d : PyDict) (k : String) (default : PyVal) : PyVal :=
  match d.lookup k with
  | some v => v
  | none => default

/-- Python `str(d)` for a dict: brace-wrapped, comma-separated
`repr(key): repr(value)` pairs. -/
def pyStrOfDict (d : PyDict) : String :=
  lbr ++ String.intercalate ", "
    (d.map fun p => sq ++ p.1 ++ sq ++ ": " ++ pyReprOfVal p.2) ++ rbr

/-- `ExecutionStatus` from models.py. -/
inductive ExecutionStatus where
  | success
  | error
  | timeout
deriving DecidableEq, Repr, BEq

/-- `ExecutionRecord` from models.py (UUIDs as `Nat`, floats as `ℚ`;
`executed_at` omitted since no claim mentions it).  `id` models the
`uuid4()` default: freshness of generated ids is outside the embedding,
so records made by the executor keep the default value. -/
structure ExecutionRecord where
  id : Nat := 0
  program_id : Nat
  task_id : Nat
  input_data : PyDict
  output_data : Option PyDict
  latency_ms : ℚ
  memory_usage_mb : Option ℚ
  status : ExecutionStatus
  error_message : Option String
  sampled_for_validation : Bool
  validation_id : Option Nat
deriving DecidableEq, Repr

/-- A Python exception as distinguished by `ProgramExecutor.execute`'s
two handlers: `timeoutError` is caught by `except TimeoutError`,
`otherExc` is any other `Exception`-derived raise caught by
`except Exception` (with its `str(e)` message), and `baseExc` is a
`BaseException`-derived raise that is NOT an `Exception` — caught by
neither handler.  The last is expressible inside the sandbox: `Exception`
is exposed in `safe_builtins` (line 168), so a program can execute
`raise Exception.__base__("x")`. -/
inductive PyExc where
  | timeoutError
  | otherExc (msg : String)
  | baseExc (msg : String)
deriving DecidableEq, Repr

/-- The behaviour of calling the program's `classify` function on one
value: return a string (`str(result)` applied), raise, or never return. -/
inductive ProgBehavior where
  | ret (s : String)
  | raises (e : PyExc)
  | diverges

/-- The behaviour of `exec`-ing a compiled module body: it defines
`classify`, does not define it, raises, or never returns. -/
inductive ModuleBehavior where
  | defines (classify : PyVal → ProgBehavior)
  | noClassify
  | raisesM (e : PyExc)
  | divergesM

/-- Result of Python `compile(source, ..., "exec")`: a compiled module
or a `SyntaxError` message. -/
inductive CompileResult where
  | ok (m : ModuleBehavior)
  | synError (msg : String)

/-- The Python-language oracle: maps a source text to its compiled
behaviour.  `ProgramExecutor` is parameterised over it. -/
abbrev PySemantics := String → CompileResult

/-- `ProgramArtifact` from models.py (fields used by the executor and
the artifact cache; `created_at`/`deployed_at` as integer timestamps). -/
structure ProgramArtifact where
  id : Nat
  task_id : Nat
  version : Nat
  language : String
  code : String
  synthesis_strategy : String
  confidence_score : ℚ
  llm_provider : String
  llm_model : String
  generation_cost : ℚ
  generation_time_sec : ℚ
  status : String
  deployment_percentage : ℚ
  created_at : Nat
  deployed_at : Option Nat
deriving DecidableEq, Repr

/-- `ProgramExecutor` state: configuration plus the compiled-program
cache `self._compiled_cache` keyed by `program.id` (newest first). -/
structure ProgramExecutor where
  timeout_ms : Nat := 1000
  max_memory_mb : Nat := 100
  compiledCache : List (Nat × ModuleBehavior) := []

/-- Input-text extraction from `_execute_safe` (line 210):
`input_data.get("text", input_data.get("input", str(input_data)))`. -/
def extractInputText (input_data : PyDict) : PyVal :=
  dictGet input_data "text" (dictGet input_data "input" (.str (pyStrOfDict input_data)))

/-- The `ValueError` message raised when the module defines no
`classify` (line 205). -/
def missingClassifyMsg : String :=
  "Program does not define " ++ sq ++ "classify" ++ sq ++ " function"

/-- The success-path `ExecutionRecord` (lines 61-72). -/
def mkSuccessRecord (p : ProgramArtifact) (input_data : PyDict) (task_id : Nat)
    (lat : ℚ) (output : String) : ExecutionRecord :=
  { program_id := p.id, task_id := task_id, input_data := input_data
    output_data := some [("result", .str output)]
    latency_ms := lat, memory_usage_mb := none
    status := .success, error_message := none
    sampled_for_validation := false, validation_id := none }

/-- The `except TimeoutError` record (lines 80-91). -/
def mkTimeoutRecord (ex : ProgramExecutor) (p : ProgramArtifact)
    (input_data : PyDict) (task_id : Nat) (lat : ℚ) : ExecutionRecord :=
  { program_id := p.id, task_id := task_id, input_data := input_data
    output_data := none
    latency_ms := lat, memory_usage_mb := none
    status := .timeout
    error_message := some ("Execution timeout after " ++ toString ex.timeout_ms ++ "ms")
    sampled_for_validation := false, validation_id := none }

/-- The `except Exception` record (lines 97-108). -/
def mkErrorRecord (p : ProgramArtifact) (input_data : PyDict) (task_id : Nat)
    (lat : ℚ) (msg : String) : ExecutionRecord :=
  { program_id := p.id, task_id := task_id, input_data := input_data
    output_data := none
    latency_ms := lat, memory_usage_mb := none
    status := .error, error_message := some msg
    sampled_for_validation := false, validation_id := none }

/-- `_execute_safe` and the surrounding `try`/`except` routing of
`execute`, given the (cached) compiled module `m`.  Outcomes:
`none` when the Python call never returns (module body or `classify`
diverges — there is no timeout mechanism in the source to interrupt
it); `some (.error msg)` when a `BaseException`-derived raise passes
both `except TimeoutError` and `except Exception` and escapes;
`some (.ok rec)` when an `ExecutionRecord` is produced. -/
def runCompiled (ex : ProgramExecutor) (p : ProgramArtifact) (input_data : PyDict)
    (task_id : Nat) (lat : ℚ) (m : ModuleBehavior) :
    Option (Except String ExecutionRecord) :=
  match m with
  | .divergesM => none
  | .raisesM .timeoutError => some (.ok (mkTimeoutRecord ex p input_data task_id lat))
  | .raisesM (.otherExc msg) => some (.ok (mkErrorRecord p input_data task_id lat msg))
  | .raisesM (.baseExc msg) => some (.error msg)
  | .noClassify => some (.ok (mkErrorRecord p input_data task_id lat missingClassifyMsg))
  | .defines classify =>
    match classify (extractInputText input_data) with
    | .diverges => none
    | .raises .timeoutError => some (.ok (mkTimeoutRecord ex p input_data task_id lat))
    | .raises (.otherExc msg) => some (.ok (mkErrorRecord p input_data task_id lat msg))
    | .raises (.baseExc msg) => some (.error msg)
    | .ret out => some (.ok (mkSuccessRecord p input_data task_id lat out))

/-- `ProgramExecutor.execute` (lines 29-108).  `sem` is the Python
compiler/loader; `lat` is the measured `perf_counter` latency in ms
(wall-clock time is outside the embedding, so the measured value is a
parameter).  Result: `none` models a call that never returns; otherwise
the record together with the post-call executor state (cache updates).
`_compile_program` (lines 110-116) is inlined: on miss it compiles and
caches on success, and on `SyntaxError` re-raises a wrapped message
which the `except Exception` handler converts into an error record —
note that a failed compilation caches nothing.  Result: `none` models a
call that never returns; `some (.error msg)` models an exception
escaping `execute` to its caller (a `BaseException`-derived raise, see
`runCompiled`); `some (.ok (rec, ex'))` is the returned record together
with the post-call executor state (cache updates). -/
def ProgramExecutor.execute (sem : PySemantics) (ex : ProgramExecutor)
    (p : ProgramArtifact) (input_data : PyDict) (task_id : Nat) (lat : ℚ) :
    Option (Except String (ExecutionRecord × ProgramExecutor)) :=
  match ex.compiledCache.lookup p.id with
  | some m =>
    (runCompiled ex p input_data task_id lat m).map (fun r => r.map (fun rec => (rec, ex)))
  | none =>
    match sem p.code with
    | .synError msg =>
      some (.ok (mkErrorRecord p input_data task_id lat ("Failed to compile program: " ++ msg), ex))
    | .ok m =>
      let ex' := { ex with compiledCache := (p.id, m) :: ex.compiledCache }
      (runCompiled ex' p input_data task_id lat m).map (fun r => r.map (fun rec => (rec, ex')))

/-! ## RandomSampler (`src/loopai/sampler/random_sampler.py`)

Python's global `random` module is external-library code; it is modelled
as a deterministic pseudo-random generator over a 64-bit state (a linear
congruential step), which preserves exactly the properties the source
relies on: `random.seed(s)` makes the state a function of `s` alone, and
`random.sample(pop, k)` draws `k` distinct elements of `pop` (selection
without replacement), deterministically from the current state. -/

/-- Global state of the `random` module. -/
abbrev RngState := Nat

/-- One generator step (64-bit linear congruential update). -/
def lcgStep (s : RngState) : RngState :=
  (6364136223846793005 * s + 1442695040888963407) % (2 ^ 64)

/-- `random.seed(seed)`: the state becomes a function of the seed alone. -/
def seedState (seed : Nat) : RngState := seed % (2 ^ 64)

/-- `random.sample(pool, k)` modelled as a partial Fisher-Yates draw:
pick a position below the pool's length, take that element, recurse on
the pool with it removed.  Returns the drawn elements and the advanced
generator state. -/
def sampleGo : Nat → RngState → List Nat → List Nat × RngState
  | 0, st, _ => ([], st)
  | _ + 1, st, [] => ([], st)
  | k + 1, st, x :: pool =>
    let st' := lcgStep st
    let j := st' % (x :: pool).length
    let chosen := (x :: pool).getD j 0
    let rest := (x :: pool).eraseIdx j
    let out := sampleGo k st' rest
    (chosen :: out.1, out.2)

/-- `RandomSampler` (lines 17-32): the validated sampling rate and the
optional seed.  `random.seed` is applied to the global state at
construction, so the constructor returns the new global RNG state. -/
structure RandomSampler where
  sampling_rate : ℚ
  seed : Option Nat

/-- `RandomSampler.__init__`: rejects rates outside `[0, 1]` with a
`ValueError`, otherwise stores the rate and reseeds the global RNG when
a seed is given. -/
def RandomSampler.init (sampling_rate : ℚ) (seed : Option Nat) (g : RngState) :
    Except String (RandomSampler × RngState) :=
  if 0 ≤ sampling_rate ∧ sampling_rate ≤ 1 then
    .ok ({ sampling_rate := sampling_rate, seed := seed },
         match seed with
         | some s => seedState s
         | none => g)
  else
    .error ("Sampling rate must be between 0.0 and 1.0, got " ++ toString sampling_rate)

/-- The list comprehension
`[i for i, exec in enumerate(executions) if exec.status.value == "success"]`
(lines 48-50), unfolded with the running index made explicit. -/
def successIdxFrom : Nat → List ExecutionRecord → List Nat
  | _, [] => []
  | i, e :: rest =>
    if e.status = .success then i :: successIdxFrom (i + 1) rest
    else successIdxFrom (i + 1) rest

/-- The successful-index set of a batch. -/
def successfulIndices (executions : List ExecutionRecord) : List Nat :=
  successIdxFrom 0 executions

/-- `RandomSampler.select_for_validation` (lines 34-59).
`sample_count = max(1, int(total_count * self.sampling_rate))` is taken
over the WHOLE batch length, then capped by the number of successful
executions; `int()` on the non-negative product is `Rat.floor`.  The
global RNG state is threaded through and returned. -/
def RandomSampler.selectForValidation (self : RandomSampler) (g : RngState)
    (executions : List ExecutionRecord) : List Nat × RngState :=
  let total_count := executions.length
  let sample_count := max 1 (Int.toNat (Rat.floor ((total_count : ℚ) * self.sampling_rate)))
  let successful_indices := successfulIndices executions
  if successful_indices.isEmpty then ([], g)
  else
    let sample_count' := min sample_count successful_indices.length
    let out := sampleGo sample_count' g successful_indices
    (out.1.insertionSort (· ≤ ·), out.2)

/-! ## ComparisonEngine (`src/loopai/validator/comparison_engine.py`) -/

/-- `ComparisonMethod` from models.py. -/
inductive ComparisonMethod where
  | exact
  | semantic
  | fuzzy
  | structured
deriving DecidableEq, Repr

/-- `FailureType` from models.py. -/
inductive FailureType where
  | syntaxError
  | logicError
  | edgeCase
  | performance
deriving DecidableEq, Repr

/-- `ValidationRecord` from models.py (auto `id`/`validated_at` omitted;
no claim mentions them). -/
structure ValidationRecord where
  execution_id : Nat
  program_id : Nat
  oracle_output : PyDict
  oracle_provider : String
  oracle_model : String
  oracle_cost : ℚ
  oracle_latency_ms : ℚ
  match_ : Bool
  similarity_score : ℚ
  comparison_method : ComparisonMethod
  failure_type : Option FailureType
  failure_category : Option String
  failure_details : Option String
  tier1_passed : Bool
  tier2_passed : Bool
  tier3_passed : Bool
deriving DecidableEq, Repr

/-- The oracle result dict `{output, cost, latency_ms}` consumed by
`compare`. -/
structure OracleResult where
  output : String
  cost : ℚ
  latency_ms : ℚ
deriving DecidableEq, Repr

/-- `ComparisonEngine._extract_output` (lines 86-94):
`str(output_data.get("result", ""))` on a dict, `""` on `None`. -/
def extractOutput (output_data : Option PyDict) : String :=
  match output_data with
  | none => ""
  | some d => pyStrOfVal (dictGet d "result" (.str ""))

/-- ASCII whitespace removed by Python `str.strip` (space, tab, LF, CR,
vertical tab, form feed). -/
def isPySpace (c : Char) : Bool :=
  c.toNat = 32 ∨ c.toNat = 9 ∨ c.toNat = 10 ∨ c.toNat = 13 ∨
    c.toNat = 11 ∨ c.toNat = 12

/-- Python `str.strip()`: drop leading and trailing whitespace. -/
def pyStrip (s : String) : String :=
  ⟨((s.data.dropWhile isPySpace).reverse.dropWhile isPySpace).reverse⟩

/-- Python `str.lower()` on one character (ASCII case map). -/
def pyCharLower (c : Char) : Char :=
  if 65 ≤ c.toNat ∧ c.toNat ≤ 90 then Char.ofNat (c.toNat + 32) else c

/-- Python `str.lower()`. -/
def pyLower (s : String) : String :=
  ⟨s.data.map pyCharLower⟩

/-- `ComparisonEngine._normalize_output` (lines 96-98):
`output.strip().lower()`. -/
def normalizeOutput (output : String) : String :=
  pyLower (pyStrip output)

/-- `ComparisonEngine._exact_match` (lines 100-109); Python `==` on
strings is string equality. -/
def exactMatch (output1 output2 : String) : Bool × ℚ :=
  let m := decide (output1 = output2)
  (m, if m then 1 else 0)

/-- `ComparisonEngine._semantic_similarity` (lines 111-118): declared
but raises `NotImplementedError`; never reached from `compare`. -/
def semanticSimilarity (_output1 _output2 : String) : Except String (Bool × ℚ) :=
  .error "Semantic similarity not implemented yet"

/-- `ComparisonEngine._fuzzy_match` (lines 120-127): declared but raises
`NotImplementedError`; never reached from `compare`. -/
def fuzzyMatch (_output1 _output2 : String) : Except String (Bool × ℚ) :=
  .error "Fuzzy matching not implemented yet"

/-- `ComparisonEngine.compare` (lines 25-84).  Note the method dispatch:
`if method == EXACT` uses `_exact_match`, and the `else` branch — with
the comment "Future: Implement other comparison methods" — ALSO calls
`_exact_match`; no branch raises. -/
def ComparisonEngine.compare (execution : ExecutionRecord)
    (oracle_result : OracleResult)
    (method : ComparisonMethod := .exact) : ValidationRecord :=
  let program_output := extractOutput execution.output_data
  let oracle_output := oracle_result.output
  let program_output_norm := normalizeOutput program_output
  let oracle_output_norm := normalizeOutput oracle_output
  let ms :=
    if method = .exact then exactMatch program_output_norm oracle_output_norm
    else exactMatch program_output_norm oracle_output_norm
  let failure_type : Option FailureType := if ms.1 then none else some .logicError
  let failure_details : Option String :=
    if ms.1 then none
    else some ("Program output " ++ sq ++ program_output ++ sq ++
               " != Oracle output " ++ sq ++ oracle_output ++ sq)
  { execution_id := execution.id
    program_id := execution.program_id
    oracle_output := [("result", .str oracle_output)]
    oracle_provider := "openai"
    oracle_model := "gpt-4"
    oracle_cost := oracle_result.cost
    oracle_latency_ms := oracle_result.latency_ms
    match_ := ms.1
    similarity_score := ms.2
    comparison_method := method
    failure_type := failure_type
    failure_category := if ms.1 then none else some "classification_error"
    failure_details := failure_details
    tier1_passed := true
    tier2_passed := true
    tier3_passed := ms.1 }

/-! ## ArtifactCache (`src/loopai/runtime/artifact_cache.py`)

The on-disk subtree `artifacts/{task_id}/v{version}/` holding
`program.py` and `metadata.json` is modelled as a finite map from
`(task_id, version)` to the stored pair.  Writing with mode `"w"`
replaces each file's contents wholly, so `store_artifact` is a map
update that replaces the entry. -/

/-- `ProgramArtifact.model_dump(mode="json", exclude={"code"})`: every
field except the source code. -/
structure ArtifactMetadata where
  id : Nat
  task_id : Nat
  version : Nat
  language : String
  synthesis_strategy : String
  confidence_score : ℚ
  llm_provider : String
  llm_model : String
  generation_cost : ℚ
  generation_time_sec : ℚ
  status : String
  deployment_percentage : ℚ
  created_at : Nat
  deployed_at : Option Nat
deriving DecidableEq, Repr

/-- `artifact.model_dump(mode="json", exclude={"code"})` (line 59). -/
def metadataOf (a : ProgramArtifact) : ArtifactMetadata :=
  { id := a.id, task_id := a.task_id, version := a.version
    language := a.language, synthesis_strategy := a.synthesis_strategy
    confidence_score := a.confidence_score
    llm_provider := a.llm_provider, llm_model := a.llm_model
    generation_cost := a.generation_cost
    generation_time_sec := a.generation_time_sec
    status := a.status, deployment_percentage := a.deployment_percentage
    created_at := a.created_at, deployed_at := a.deployed_at }

/-- `ProgramArtifact(**metadata)` after `metadata["code"] = code`
(lines 185-186). -/
def rebuildArtifact (m : ArtifactMetadata) (code : String) : ProgramArtifact :=
  { id := m.id, task_id := m.task_id, version := m.version
    language := m.language, code := code
    synthesis_strategy := m.synthesis_strategy
    confidence_score := m.confidence_score
    llm_provider := m.llm_provider, llm_model := m.llm_model
    generation_cost := m.generation_cost
    generation_time_sec := m.generation_time_sec
    status := m.status, deployment_percentage := m.deployment_percentage
    created_at := m.created_at, deployed_at := m.deployed_at }

/-- Contents of one `v{version}` directory: `program.py` and
`metadata.json`. -/
structure StoredVersion where
  code : String
  metadata : ArtifactMetadata
deriving DecidableEq, Repr

/-- The `artifacts/` subtree: entries keyed by `(task_id, version)`. -/
structure ArtifactCache where
  entries : List ((String × Nat) × StoredVersion)
deriving DecidableEq, Repr

/-- `ArtifactCache.store_artifact` (lines 36-62): create/overwrite the
version directory's two files; any prior entry for the same task and
version is wholly replaced. -/
def ArtifactCache.store_artifact (fsys : ArtifactCache) (task_id : String)
    (artifact : ProgramArtifact) : ArtifactCache :=
  { entries :=
      ((task_id, artifact.version), ⟨artifact.code, metadataOf artifact⟩) ::
        fsys.entries.filter (fun e => ¬ e.1 = (task_id, artifact.version)) }

/-- `ArtifactCache.get_artifact` (lines 158-188): `None` when the
version directory does not exist, otherwise the artifact rebuilt from
`metadata.json` plus `program.py`. -/
def ArtifactCache.get_artifact (fsys : ArtifactCache) (task_id : String)
    (version : Nat) : Option ProgramArtifact :=
  match fsys.entries.lookup (task_id, version) with
  | none => none
  | some sv => some (rebuildArtifact sv.metadata sv.code)

/-! ## DatasetManager analytics (`src/loopai/runtime/dataset_manager.py`)

`generate_daily_analytics` reads the day's JSONL log and aggregates it;
the file read (`read_execution_logs`) is abstracted as the given list of
parsed rows.  A log row is the JSON dict of an `ExecutionRecord` as the
code accesses it: `e["status"]` (a string), `e.get("latency_ms")`,
`e.get("sampled_for_validation", False)`. -/

/-- One parsed line of an executions log file. -/
structure LogRow where
  status : String
  latency_ms : Option ℚ
  sampled_for_validation : Bool
deriving DecidableEq, Repr

/-- The analytics dict produced by `generate_daily_analytics`. -/
structure DailyAnalytics where
  date : String
  total_executions : Nat
  successful_executions : Nat
  failed_executions : Nat
  success_rate : ℚ
  sampled_count : Nat
  sampling_rate : ℚ
  avg_latency_ms : ℚ
  p50_latency_ms : ℚ
  p99_latency_ms : ℚ
deriving DecidableEq, Repr

/-- The zero-filled analytics returned for a day with no executions
(lines 140-152). -/
def zeroAnalytics (date : String) : DailyAnalytics :=
  { date := date, total_executions := 0, successful_executions := 0
    failed_executions := 0, success_rate := 0, sampled_count := 0
    sampling_rate := 0, avg_latency_ms := 0, p50_latency_ms := 0
    p99_latency_ms := 0 }

/-- The latency list (lines 161-165): `e["latency_ms"]` for rows with
`status == "success"` and a present latency. -/
def successLatencies (executions : List LogRow) : List ℚ :=
  executions.filterMap (fun e =>
    if e.status = "success" then e.latency_ms else none)

/-- `sorted_latencies[int(len(sorted_latencies) * p)]` where `p` is the
float literal `0.50` or `0.99`; for these factors and list lengths the
float product truncates exactly like the rational floor. -/
def percentileAt (sortedL : List ℚ) (p : ℚ) : ℚ :=
  sortedL.getD (Int.toNat (Rat.floor ((sortedL.length : ℚ) * p))) 0

/-- Sum of a rational list (`statistics.mean` numerator). -/
def ratSum (l : List ℚ) : ℚ := l.foldr (· + ·) 0

/-- The `if latencies: ... else: avg = p50 = p99 = 0.0` block
(lines 167-173): mean, p50 and p99 of the latency list, or zeros when
it is empty.  `statistics.mean` is sum divided by length; the
percentiles index the ascending sort. -/
def latencyStatsOf (latencies : List ℚ) : ℚ × ℚ × ℚ :=
  if latencies.isEmpty then (0, 0, 0)
  else
    let sortedL := latencies.insertionSort (· ≤ ·)
    (ratSum latencies / (latencies.length : ℚ),
     percentileAt sortedL (1 / 2),
     percentileAt sortedL (99 / 100))

/-- `DatasetManager.generate_daily_analytics` (lines 114-201), as a
function of the day's parsed log rows.  Persisting the aggregate to
`analytics/daily-stats-{date}.json` is a side effect that does not feed
back into the returned value. -/
def DatasetManager.generateDailyAnalytics (date : String)
    (executions : List LogRow) : DailyAnalytics :=
  if executions.isEmpty then zeroAnalytics date
  else
    let total := executions.length
    let successful := (executions.filter (fun e => e.status = "success")).length
    let failed := total - successful
    let sampled := (executions.filter (fun e => e.sampled_for_validation)).length
    let stats := latencyStatsOf (successLatencies executions)
    { date := date
      total_executions := total
      successful_executions := successful
      failed_executions := failed
      success_rate := if total > 0 then (successful : ℚ) / (total : ℚ) else 0
      sampled_count := sampled
      sampling_rate := if total > 0 then (sampled : ℚ) / (total : ℚ) else 0
      avg_latency_ms := stats.1
      p50_latency_ms := stats.2.1
      p99_latency_ms := stats.2.2 }

/-! ## Helper lemmas: sampler -/

theorem sampleGo_subperm : ∀ (k : Nat) (st : RngState) (pool : List Nat),
    List.Subperm (sampleGo k st pool).1 pool := by
  intro k
  induction k with
  | zero => intro st pool; simp [sampleGo]
  | succ k ih =>
    intro st pool
    match pool with
    | [] => simp [sampleGo]
    | x :: pool =>
      simp only [sampleGo]
      have hlen : 0 < (x :: pool).length := by simp
      have hj : lcgStep st % (x :: pool).length < (x :: pool).length := Nat.mod_lt _ hlen
      have hchosen : (x :: pool).getD (lcgStep st % (x :: pool).length) 0 =
          (x :: pool)[lcgStep st % (x :: pool).length] := by
        rw [List.getD_eq_getElem?_getD, List.getElem?_eq_getElem hj, Option.getD_some]
      have hperm : List.Perm (x :: pool)
          ((x :: pool)[lcgStep st % (x :: pool).length] ::
            (x :: pool).eraseIdx (lcgStep st % (x :: pool).length)) :=
        (List.perm_cons_erase (List.getElem_mem hj)).trans
          (List.Perm.cons _ (List.erase_getElem hj))
      have hsub := ih (lcgStep st) ((x :: pool).eraseIdx (lcgStep st % (x :: pool).length))
      have hcons := (List.subperm_cons
          ((x :: pool).getD (lcgStep st % (x :: pool).length) 0)).mpr hsub
      refine hcons.trans ?_
      rw [hchosen]
      exact hperm.symm.subperm

theorem sampleGo_length : ∀ (k : Nat) (st : RngState) (pool : List Nat),
    (sampleGo k st pool).1.length = min k pool.length := by
  intro k
  induction k with
  | zero => intro st pool; simp [sampleGo]
  | succ k ih =>
    intro st pool
    match pool with
    | [] => simp [sampleGo]
    | x :: pool =>
      have hlen : 0 < (x :: pool).length := by simp
      have hj : lcgStep st % (x :: pool).length < (x :: pool).length := Nat.mod_lt _ hlen
      have herase : ((x :: pool).eraseIdx (lcgStep st % (x :: pool).length)).length + 1 =
          (x :: pool).length := List.length_eraseIdx_add_one hj
      simp only [sampleGo, List.length_cons]
      rw [ih]
      simp only [List.length_cons] at herase
      omega

theorem successIdxFrom_ge : ∀ (l : List ExecutionRecord) (i j : Nat),
    j ∈ successIdxFrom i l → i ≤ j := by
  intro l
  induction l with
  | nil => intro i j h; simp [successIdxFrom] at h
  | cons e rest ih =>
    intro i j h
    simp only [successIdxFrom] at h
    by_cases hs : e.status = .success
    · rw [if_pos hs] at h
      rcases List.mem_cons.mp h with rfl | h
      · omega
      · have := ih (i + 1) j h; omega
    · rw [if_neg hs] at h
      have := ih (i + 1) j h; omega

theorem successIdxFrom_pairwise : ∀ (l : List ExecutionRecord) (i : Nat),
    (successIdxFrom i l).Pairwise (· < ·) := by
  intro l
  induction l with
  | nil => intro i; simp [successIdxFrom]
  | cons e rest ih =>
    intro i
    simp only [successIdxFrom]
    by_cases hs : e.status = .success
    · rw [if_pos hs]
      refine List.Pairwise.cons ?_ (ih (i + 1))
      intro j hj
      have := successIdxFrom_ge rest (i + 1) j hj
      omega
    · rw [if_neg hs]
      exact ih (i + 1)

theorem successIdxFrom_status : ∀ (l : List ExecutionRecord) (i j : Nat),
    j ∈ successIdxFrom i l →
      ∃ e, l.get? (j - i) = some e ∧ e.status = .success := by
  intro l
  induction l with
  | nil => intro i j h; simp [successIdxFrom] at h
  | cons e rest ih =>
    intro i j h
    simp only [successIdxFrom] at h
    by_cases hs : e.status = .success
    · rw [if_pos hs] at h
      rcases List.mem_cons.mp h with rfl | h
      · exact ⟨e, by simp, hs⟩
      · obtain ⟨e', he', hst⟩ := ih (i + 1) j h
        have hij : i + 1 ≤ j := successIdxFrom_ge rest (i + 1) j h
        refine ⟨e', ?_, hst⟩
        have hd : j - i = (j - (i + 1)) + 1 := by omega
        rw [hd]
        simpa using he'
    · rw [if_neg hs] at h
      obtain ⟨e', he', hst⟩ := ih (i + 1) j h
      have hij : i + 1 ≤ j := successIdxFrom_ge rest (i + 1) j h
      refine ⟨e', ?_, hst⟩
      have hd : j - i = (j - (i + 1)) + 1 := by omega
      rw [hd]
      simpa using he'

theorem successfulIndices_nodup (executions : List ExecutionRecord) :
    (successfulIndices executions).Nodup :=
  (successIdxFrom_pairwise executions 0).imp Nat.ne_of_lt

theorem selectForValidation_nodup (self : RandomSampler) (g : RngState)
    (executions : List ExecutionRecord) :
    (self.selectForValidation g executions).1.Nodup := by
  unfold RandomSampler.selectForValidation
  cases hE : (successfulIndices executions).isEmpty with
  | true => simp [hE]
  | false =>
    simp only [hE, Bool.false_eq_true, if_false]
    obtain ⟨l', hperm, hsublist⟩ := sampleGo_subperm
      (min (max 1 (Int.toNat (Rat.floor ((executions.length : ℚ) * self.sampling_rate))))
        (successfulIndices executions).length) g (successfulIndices executions)
    have hnodup := hperm.nodup (hsublist.nodup (successfulIndices_nodup executions))
    exact (List.perm_insertionSort (· ≤ ·) _).symm.nodup hnodup

theorem selectForValidation_sorted (self : RandomSampler) (g : RngState)
    (executions : List ExecutionRecord) :
    (self.selectForValidation g executions).1.Sorted (· ≤ ·) := by
  unfold RandomSampler.selectForValidation
  cases hE : (successfulIndices executions).isEmpty with
  | true => simp [hE]
  | false =>
    simp only [hE, Bool.false_eq_true, if_false]
    exact List.sorted_insertionSort (· ≤ ·) _

theorem selectForValidation_subset (self : RandomSampler) (g : RngState)
    (executions : List ExecutionRecord) :
    ∀ j ∈ (self.selectForValidation g executions).1,
      j ∈ successfulIndices executions := by
  unfold RandomSampler.selectForValidation
  cases hE : (successfulIndices executions).isEmpty with
  | true => simp [hE]
  | false =>
    simp only [hE, Bool.false_eq_true, if_false]
    intro j hj
    have hj' := (List.perm_insertionSort (· ≤ ·) _).subset hj
    exact (sampleGo_subperm _ g (successfulIndices executions)).subset hj'

theorem selectForValidation_length (self : RandomSampler) (g : RngState)
    (executions : List ExecutionRecord) :
    (self.selectForValidation g executions).1.length =
      if (successfulIndices executions).isEmpty then 0
      else
        min (max 1 (Int.toNat (Rat.floor ((executions.length : ℚ) * self.sampling_rate))))
          (successfulIndices executions).length := by
  unfold RandomSampler.selectForValidation
  cases hE : (successfulIndices executions).isEmpty with
  | true => simp [hE]
  | false =>
    simp only [hE, Bool.false_eq_true, if_false]
    rw [(List.perm_insertionSort (· ≤ ·) _).length_eq, sampleGo_length]
    omega

/-! ## Helper lemmas: executor -/

theorem runCompiled_failure (ex : ProgramExecutor) (p : ProgramArtifact)
    (input_data : PyDict) (task_id : Nat) (lat : ℚ) (m : ModuleBehavior)
    (rec : ExecutionRecord)
    (h : runCompiled ex p input_data task_id lat m = some (.ok rec))
    (hne : rec.status ≠ .success) :
    rec.output_data = none ∧ rec.error_message ≠ none := by
  cases m with
  | divergesM => simp [runCompiled] at h
  | raisesM e =>
    cases e with
    | timeoutError =>
      simp only [runCompiled, Option.some.injEq, Except.ok.injEq] at h
      subst h
      simp [mkTimeoutRecord]
    | otherExc msg =>
      simp only [runCompiled, Option.some.injEq, Except.ok.injEq] at h
      subst h
      simp [mkErrorRecord]
    | baseExc msg => simp [runCompiled] at h
  | noClassify =>
    simp only [runCompiled, Option.some.injEq, Except.ok.injEq] at h
    subst h
    simp [mkErrorRecord]
  | defines f =>
    cases hf : f (extractInputText input_data) with
    | ret out =>
      simp only [runCompiled, hf, Option.some.injEq, Except.ok.injEq] at h
      subst h
      exact absurd rfl hne
    | raises e =>
      cases e with
      | timeoutError =>
        simp only [runCompiled, hf, Option.some.injEq, Except.ok.injEq] at h
        subst h
        simp [mkTimeoutRecord]
      | otherExc msg =>
        simp only [runCompiled, hf, Option.some.injEq, Except.ok.injEq] at h
        subst h
        simp [mkErrorRecord]
      | baseExc msg => simp [runCompiled, hf] at h
    | diverges => simp [runCompiled, hf] at h

/-- An exception escapes `runCompiled` only when the program itself
raised a `BaseException`-derived (non-`Exception`) exception, from the
module body or from `classify`. -/
theorem runCompiled_escape (ex : ProgramExecutor) (p : ProgramArtifact)
    (input_data : PyDict) (task_id : Nat) (lat : ℚ) (m : ModuleBehavior)
    (msg : String)
    (h : runCompiled ex p input_data task_id lat m = some (.error msg)) :
    m = .raisesM (.baseExc msg) ∨
      ∃ f, m = .defines f ∧
        f (extractInputText input_data) = .raises (.baseExc msg) := by
  cases m with
  | divergesM => simp [runCompiled] at h
  | raisesM e =>
    cases e with
    | timeoutError => simp [runCompiled] at h
    | otherExc m0 => simp [runCompiled] at h
    | baseExc m0 =>
      simp only [runCompiled, Option.some.injEq, Except.error.injEq] at h
      subst h
      exact .inl rfl
  | noClassify => simp [runCompiled] at h
  | defines f =>
    cases hf : f (extractInputText input_data) with
    | ret out => simp [runCompiled, hf] at h
    | raises e =>
      cases e with
      | timeoutError => simp [runCompiled, hf] at h
      | otherExc m0 => simp [runCompiled, hf] at h
      | baseExc m0 =>
        simp only [runCompiled, hf, Option.some.injEq, Except.error.injEq] at h
        subst h
        exact .inr ⟨f, rfl, hf⟩
    | diverges => simp [runCompiled, hf] at h

/-! ## Claims -/

/-- Concrete artifact used for closed-instance theorems. -/
def progEx : ProgramArtifact :=
  { id := 11, task_id := 7, version := 1, language := "python"
    code := "def classify(text): return run_forever()"
    synthesis_strategy := "auto", confidence_score := 1 / 2
    llm_provider := "openai", llm_model := "gpt-4"
    generation_cost := 0, generation_time_sec := 0
    status := "draft", deployment_percentage := 0
    created_at := 0, deployed_at := none }

/-- A Python semantics in which `progEx.code` compiles to a module whose
`classify` never returns (e.g. `while True: pass` in its body). -/
def semLoop : PySemantics := fun _ => .ok (.defines fun _ => .diverges)

/-- **C1.** The spec claims `execute` returns within `timeout_ms + ε`
for every outcome, with a `timeout`-status record if the bound is
exceeded.  The code has no timeout mechanism at all: the
`except TimeoutError` handler is reachable only if the program itself
raises `TimeoutError`, and a program that never returns makes `execute`
never return (the executor docstrings promise a `timeout_ms` bound, so
this is a code bug, not a spec error).  Concretely: a fresh executor
with the default 1000ms configuration, run on a looping `classify`,
yields no `ExecutionRecord` at all (`none` = the call never returns). -/
theorem execute_hangs_on_looping_program :
    ProgramExecutor.execute semLoop {} progEx [("text", .str "x")] 7 0 = none := rfl

/-- A semantics in which `progEx.code` compiles to a module whose
`classify` raises a `BaseException`-derived (non-`Exception`) exception
— in Python, e.g. `def classify(text): raise Exception.__base__("x")`,
expressible in the sandbox because `Exception` is in `safe_builtins`. -/
def semBase : PySemantics := fun _ => .ok (.defines fun _ => .raises (.baseExc "x"))

/-- **C2 counterexample.** The claim says `execute` never raises an
exception to its caller for any program and input.  But `execute`'s
handlers are `except TimeoutError` and `except Exception`: a
`BaseException`-derived raise (reachable since `Exception` — and hence
`Exception.__base__` — is exposed to the sandboxed program) passes both
and escapes `execute`.  Concretely, a program whose `classify` raises
`Exception.__base__("x")` makes `execute` propagate the exception
(`some (.error "x")`) instead of returning an `ExecutionRecord`. -/
theorem execute_escapes_base_exception :
    ProgramExecutor.execute semBase {} progEx [("text", .str "x")] 7 0 =
      some (.error "x") := rfl

/-- **C2 (amended).** `execute` never lets an `Exception`-derived
failure escape: every returned record with a non-`success` status has
`output_data = None` and a populated `error_message` (part one); and
the ONLY raises that escape `execute` are `BaseException`-derived
(non-`Exception`) exceptions raised by the program itself — from the
module body or from `classify` — so all the listed failure modes
(compilation failure, runtime `Exception`, timeout, missing entry
point) are captured into records (part two). -/
theorem execute_exception_capture (sem : PySemantics) (ex : ProgramExecutor)
    (p : ProgramArtifact) (input_data : PyDict) (task_id : Nat) (lat : ℚ) :
    (∀ rec ex', ProgramExecutor.execute sem ex p input_data task_id lat =
        some (.ok (rec, ex')) → rec.status ≠ .success →
      rec.output_data = none ∧ rec.error_message ≠ none) ∧
    (∀ msg, ProgramExecutor.execute sem ex p input_data task_id lat =
        some (.error msg) →
      ∃ m, (ex.compiledCache.lookup p.id = some m ∨ sem p.code = .ok m) ∧
        (m = .raisesM (.baseExc msg) ∨
          ∃ f, m = .defines f ∧
            f (extractInputText input_data) = .raises (.baseExc msg))) := by
  constructor
  · intro rec ex' h hne
    unfold ProgramExecutor.execute at h
    split at h
    · rename_i m heq
      cases hr : runCompiled ex p input_data task_id lat m with
      | none => rw [hr] at h; simp at h
      | some r =>
        rw [hr] at h
        cases r with
        | error m0 => simp [Except.map] at h
        | ok rec0 =>
          simp only [Option.map_some', Except.map, Option.some.injEq,
            Except.ok.injEq, Prod.mk.injEq] at h
          obtain ⟨rfl, -⟩ := h
          exact runCompiled_failure _ _ _ _ _ _ _ hr hne
    · split at h
      · simp only [Option.some.injEq, Except.ok.injEq, Prod.mk.injEq] at h
        obtain ⟨rfl, -⟩ := h
        simp [mkErrorRecord]
      · rename_i m hs
        simp only at h
        cases hr : runCompiled { ex with compiledCache := (p.id, m) :: ex.compiledCache }
            p input_data task_id lat m with
        | none => rw [hr] at h; simp at h
        | some r =>
          rw [hr] at h
          cases r with
          | error m0 => simp [Except.map] at h
          | ok rec0 =>
            simp only [Option.map_some', Except.map, Option.some.injEq,
              Except.ok.injEq, Prod.mk.injEq] at h
            obtain ⟨rfl, -⟩ := h
            exact runCompiled_failure _ _ _ _ _ _ _ hr hne
  · intro msg h
    unfold ProgramExecutor.execute at h
    split at h
    · rename_i m heq
      cases hr : runCompiled ex p input_data task_id lat m with
      | none => rw [hr] at h; simp at h
      | some r =>
        rw [hr] at h
        cases r with
        | ok rec0 => simp [Except.map] at h
        | error m0 =>
          simp only [Option.map_some', Except.map, Option.some.injEq,
            Except.error.injEq] at h
          subst h
          exact ⟨m, .inl heq, runCompiled_escape _ _ _ _ _ _ _ hr⟩
    · split at h
      · simp at h
      · rename_i m hs
        simp only at h
        cases hr : runCompiled { ex with compiledCache := (p.id, m) :: ex.compiledCache }
            p input_data task_id lat m with
        | none => rw [hr] at h; simp at h
        | some r =>
          rw [hr] at h
          cases r with
          | ok rec0 => simp [Except.map] at h
          | error m0 =>
            simp only [Option.map_some', Except.map, Option.some.injEq,
              Except.error.injEq] at h
            subst h
            exact ⟨m, .inr hs, runCompiled_escape _ _ _ _ _ _ _ hr⟩

/-- A semantics under which `progEx.code` compiles to a module whose
body raises a generic exception. -/
def semBoom : PySemantics := fun _ => .ok (.raisesM (.otherExc "boom"))

/-- Witness for C2 (amended), part one, at a concrete failing
execution. -/
theorem execute_exception_capture_witness :
    (mkErrorRecord progEx [("text", .str "x")] 7 0 "boom").output_data = none ∧
      (mkErrorRecord progEx [("text", .str "x")] 7 0 "boom").error_message ≠ none :=
  (execute_exception_capture semBoom { compiledCache := [] } progEx
    [("text", .str "x")] 7 0).1
    (mkErrorRecord progEx [("text", .str "x")] 7 0 "boom")
    { compiledCache := [(progEx.id, .raisesM (.otherExc "boom"))] } rfl (by decide)

/-- A semantics in which every source fails to compile (`SyntaxError`
with message "invalid syntax"). -/
def semBad : PySemantics := fun _ => .synError "invalid syntax"

/-- **C5 counterexample.** The claim says a compilation failure is
permanently cached for the program id, so no recompilation is attempted
later.  In the code `_compile_program` raises on `SyntaxError` without
inserting anything into `self._compiled_cache`: after a failed compile
the returned executor state still has an EMPTY cache, so the next call
for the same id takes the compile path again.  (The error is correctly
surfaced as an `error`-status record, not an exception.) -/
theorem compile_failure_not_cached :
    ProgramExecutor.execute semBad {} progEx [("text", .str "x")] 7 0 =
      some (.ok (mkErrorRecord progEx [("text", .str "x")] 7 0
        "Failed to compile program: invalid syntax", { compiledCache := [] })) ∧
      ({ compiledCache := [] } : ProgramExecutor).compiledCache.lookup progEx.id =
        none := ⟨rfl, rfl⟩

/-- **C5 (amended).** Compilation is cached per program id for
SUCCESSFUL compiles only: (a) on a cache hit `execute` never consults
the compiler, so the prepared form is reused; (b) a compilation failure
is surfaced as an `error`-status record with the wrapped message and
leaves the executor state unchanged — the failure is NOT cached, so a
later call re-attempts compilation; (c) a successful compile on a miss
is inserted into the cache under the program id. -/
theorem execute_compile_cache_behaviour (sem₁ sem₂ : PySemantics)
    (ex : ProgramExecutor) (p : ProgramArtifact) (input_data : PyDict)
    (task_id : Nat) (lat : ℚ) :
    (∀ m, ex.compiledCache.lookup p.id = some m →
      ProgramExecutor.execute sem₁ ex p input_data task_id lat =
        ProgramExecutor.execute sem₂ ex p input_data task_id lat) ∧
    (∀ msg, ex.compiledCache.lookup p.id = none → sem₁ p.code = .synError msg →
      ProgramExecutor.execute sem₁ ex p input_data task_id lat =
        some (.ok (mkErrorRecord p input_data task_id lat
          ("Failed to compile program: " ++ msg), ex))) ∧
    (∀ m rec ex', ex.compiledCache.lookup p.id = none → sem₁ p.code = .ok m →
      ProgramExecutor.execute sem₁ ex p input_data task_id lat =
        some (.ok (rec, ex')) →
      ex'.compiledCache.lookup p.id = some m) := by
  refine ⟨?_, ?_, ?_⟩
  · intro m hm
    unfold ProgramExecutor.execute
    rw [hm]
  · intro msg hnone hsem
    unfold ProgramExecutor.execute
    rw [hnone, hsem]
  · intro m rec ex2 hnone hsem h
    unfold ProgramExecutor.execute at h
    rw [hnone, hsem] at h
    simp only at h
    cases hr : runCompiled { ex with compiledCache := (p.id, m) :: ex.compiledCache }
        p input_data task_id lat m with
    | none => rw [hr] at h; simp at h
    | some r =>
      rw [hr] at h
      cases r with
      | error m0 => simp [Except.map] at h
      | ok rec0 =>
        simp only [Option.map_some', Except.map, Option.some.injEq,
          Except.ok.injEq, Prod.mk.injEq] at h
        obtain ⟨-, rfl⟩ := h
        simp [List.lookup]

/-- Witness for C5 (amended), part (b), at a concrete failed compile. -/
theorem execute_compile_cache_behaviour_witness :
    ProgramExecutor.execute semBad {} progEx [("text", .str "y")] 7 0 =
      some (.ok (mkErrorRecord progEx [("text", .str "y")] 7 0
        "Failed to compile program: invalid syntax", ({} : ProgramExecutor))) :=
  (execute_compile_cache_behaviour semBad semBad {} progEx
    [("text", .str "y")] 7 0).2.1 "invalid syntax" rfl rfl

/-- **C6.** `_execute_safe` extracts the argument passed to `classify`
with the exact precedence `input_data.get("text",
input_data.get("input", str(input_data)))`: the value under `"text"` if
that key is present, else the value under `"input"` if present, else the
stringified whole map. -/
theorem extractInputText_precedence (input_data : PyDict) :
    (∀ v, input_data.lookup "text" = some v → extractInputText input_data = v) ∧
    (input_data.lookup "text" = none →
      ∀ v, input_data.lookup "input" = some v → extractInputText input_data = v) ∧
    (input_data.lookup "text" = none → input_data.lookup "input" = none →
      extractInputText input_data = .str (pyStrOfDict input_data)) := by
  refine ⟨?_, ?_, ?_⟩
  · intro v hv
    simp [extractInputText, dictGet, hv]
  · intro ht v hv
    simp [extractInputText, dictGet, ht, hv]
  · intro ht hi
    simp [extractInputText, dictGet, ht, hi]

/-- Witness for C6: all three precedence branches at concrete maps. -/
theorem extractInputText_precedence_witness :
    extractInputText [("text", .str "a"), ("input", .str "b")] = .str "a" ∧
      extractInputText [("input", .str "b")] = .str "b" ∧
      extractInputText [("k", .int 3)] =
        .str (pyStrOfDict [("k", .int 3)]) := by
  refine ⟨?_, ?_, ?_⟩
  · exact (extractInputText_precedence [("text", .str "a"), ("input", .str "b")]).1
      (.str "a") rfl
  · exact (extractInputText_precedence [("input", .str "b")]).2.1 rfl (.str "b") rfl
  · exact (extractInputText_precedence [("k", .int 3)]).2.2 rfl rfl

/-- `Rat.floor` is the `FloorRing` floor on `ℚ` (definitional: the
instance is built from `Rat.floor`). -/
theorem ratFloor_eq_floor (q : ℚ) : Rat.floor q = ⌊q⌋ := rfl

/-- A successful execution record for sampler tests. -/
def okRec : ExecutionRecord :=
  { program_id := 1, task_id := 7, input_data := []
    output_data := some [("result", .str "ok")]
    latency_ms := 1, memory_usage_mb := none
    status := .success, error_message := none
    sampled_for_validation := false, validation_id := none }

/-- A failed execution record for sampler tests. -/
def errRec : ExecutionRecord :=
  { program_id := 1, task_id := 7, input_data := []
    output_data := none
    latency_ms := 1, memory_usage_mb := none
    status := .error, error_message := some "e"
    sampled_for_validation := false, validation_id := none }

/-- Ten records, five successful and five failed. -/
def sampleRecs : List ExecutionRecord :=
  [okRec, errRec, okRec, errRec, okRec, errRec, okRec, errRec, okRec, errRec]

/-- **C3 counterexample.** The claim says the sample count is
`max(1, floor(N * r))` with `N` the number of SUCCESSFUL executions.
The code computes `sample_count = max(1, int(total_count * rate))` over
the WHOLE batch (line 45) and only then caps it by the number of
successful executions.  On ten records of which five are successful,
with rate 2/5: the code selects `min(max(1, floor(10 * 2/5)), 5) = 4`
indices, whereas the claimed formula gives `max(1, floor(5 * 2/5)) = 2`. -/
theorem select_count_uses_total_not_successful :
    (({ sampling_rate := 2 / 5, seed := some 123 } : RandomSampler).selectForValidation
        (seedState 123) sampleRecs).1.length = 4 ∧
      max 1 (Int.toNat (Rat.floor
        (((successfulIndices sampleRecs).length : ℚ) * (2 / 5)))) = 2 := by
  have hE : (successfulIndices sampleRecs).isEmpty = false := by decide
  have hS : (successfulIndices sampleRecs).length = 5 := by decide
  have hT : sampleRecs.length = 10 := by decide
  have h4 : ⌊(10 : ℚ) * ((2 : ℚ) / 5)⌋ = 4 := by
    rw [Int.floor_eq_iff]; norm_num
  have h2 : ⌊(5 : ℚ) * ((2 : ℚ) / 5)⌋ = 2 := by
    rw [Int.floor_eq_iff]; norm_num
  constructor
  · rw [selectForValidation_length]
    simp only [hE, hS, hT, ratFloor_eq_floor, Bool.false_eq_true, if_false,
      Nat.cast_ofNat]
    rw [h4]
    decide
  · simp only [hS, ratFloor_eq_floor, Nat.cast_ofNat]
    rw [h2]
    decide

/-- **C3 (amended).** `select_for_validation` selects
`min(max(1, floor(total * r)), S)` indices, where `total` is the length
of the WHOLE batch and `S` the number of successful executions; the
selection is drawn without replacement from the successful indices only
(every selected index points at a `success`-status record), the result
is empty when there are no successful executions, and it is returned in
ascending order without duplicates. -/
theorem selectForValidation_spec (self : RandomSampler) (g : RngState)
    (executions : List ExecutionRecord) :
    ((successfulIndices executions).isEmpty = true →
      (self.selectForValidation g executions).1 = []) ∧
    ((successfulIndices executions).isEmpty = false →
      (self.selectForValidation g executions).1.length =
        min (max 1 (Int.toNat (Rat.floor ((executions.length : ℚ) * self.sampling_rate))))
          (successfulIndices executions).length) ∧
    (∀ j ∈ (self.selectForValidation g executions).1,
      ∃ e, executions.get? j = some e ∧ e.status = .success) ∧
    (self.selectForValidation g executions).1.Sorted (· ≤ ·) ∧
    (self.selectForValidation g executions).1.Nodup := by
  refine ⟨?_, ?_, ?_, selectForValidation_sorted self g executions,
    selectForValidation_nodup self g executions⟩
  · intro hE
    unfold RandomSampler.selectForValidation
    simp [hE]
  · intro hE
    rw [selectForValidation_length, hE]
    simp
  · intro j hj
    have hmem := selectForValidation_subset self g executions j hj
    have := successIdxFrom_status executions 0 j hmem
    simpa using this

/-- Witness for C3 (amended): the count formula on the concrete batch
(a nonempty successful-index set). -/
theorem selectForValidation_spec_witness :
    (({ sampling_rate := 2 / 5, seed := some 99 } : RandomSampler).selectForValidation
        (seedState 99) sampleRecs).1.length =
      min (max 1 (Int.toNat (Rat.floor ((sampleRecs.length : ℚ) * (2 / 5)))))
        (successfulIndices sampleRecs).length :=
  (selectForValidation_spec { sampling_rate := 2 / 5, seed := some 99 }
    (seedState 99) sampleRecs).2.1 (by decide)

/-- **C4.** Sampling is deterministic under a seed: constructing a
`RandomSampler` with the same rate and seed — even starting from
DIFFERENT prior global RNG states — and running
`select_for_validation` on the same batch yields the same index list,
and the selected indices are unique.  (The determinism holds because
`random.seed(seed)` makes the generator state a function of the seed
alone.) -/
theorem selectForValidation_seed_deterministic (rate : ℚ) (seed : Nat)
    (g₁ g₂ : RngState) (executions : List ExecutionRecord)
    (s₁ s₂ : RandomSampler) (st₁ st₂ : RngState)
    (h₁ : RandomSampler.init rate (some seed) g₁ = .ok (s₁, st₁))
    (h₂ : RandomSampler.init rate (some seed) g₂ = .ok (s₂, st₂)) :
    (s₁.selectForValidation st₁ executions).1 =
      (s₂.selectForValidation st₂ executions).1 ∧
    (s₁.selectForValidation st₁ executions).1.Nodup := by
  unfold RandomSampler.init at h₁ h₂
  by_cases hv : 0 ≤ rate ∧ rate ≤ 1
  · rw [if_pos hv] at h₁ h₂
    simp only [Except.ok.injEq, Prod.mk.injEq] at h₁ h₂
    obtain ⟨rfl, rfl⟩ := h₁
    obtain ⟨rfl, rfl⟩ := h₂
    exact ⟨rfl, selectForValidation_nodup _ _ executions⟩
  · rw [if_neg hv] at h₁
    exact absurd h₁ (by simp)

/-- Witness for C4 at concrete seed 5, rate 1/10, two different prior
global states. -/
theorem selectForValidation_seed_deterministic_witness :
    (({ sampling_rate := 1 / 10, seed := some 5 } : RandomSampler).selectForValidation
        (seedState 5) sampleRecs).1 =
      (({ sampling_rate := 1 / 10, seed := some 5 } : RandomSampler).selectForValidation
        (seedState 5) sampleRecs).1 ∧
    (({ sampling_rate := 1 / 10, seed := some 5 } : RandomSampler).selectForValidation
        (seedState 5) sampleRecs).1.Nodup :=
  selectForValidation_seed_deterministic (1 / 10) 5 999 1000 sampleRecs
    { sampling_rate := 1 / 10, seed := some 5 }
    { sampling_rate := 1 / 10, seed := some 5 }
    (seedState 5) (seedState 5)
    (by unfold RandomSampler.init; rw [if_pos (by norm_num)])
    (by unfold RandomSampler.init; rw [if_pos (by norm_num)])

/-- A successful execution whose extracted output is "spam". -/
def spamExec : ExecutionRecord :=
  { program_id := 1, task_id := 7, input_data := [("text", .str "Buy now!")]
    output_data := some [("result", .str "spam")]
    latency_ms := 1, memory_usage_mb := none
    status := .success, error_message := none
    sampled_for_validation := false, validation_id := none }

/-- A concrete oracle result with output "spam". -/
def spamOracle : OracleResult :=
  { output := "spam", cost := 1 / 100, latency_ms := 250 }

/-- **C7 counterexample.** The claim says any non-`exact` method fails
with a `NotImplementedError`-equivalent that propagates, rather than
returning a `ValidationRecord`.  In the code, `compare`'s `else` branch
(lines 53-55) silently calls `_exact_match`, so `SEMANTIC` returns a
normal `ValidationRecord` (exact-match semantics, the requested method
recorded in `comparison_method`); the raising helpers
`_semantic_similarity`/`_fuzzy_match` are never invoked by `compare`. -/
theorem compare_semantic_returns_record :
    (ComparisonEngine.compare spamExec spamOracle .semantic).match_ = true ∧
      (ComparisonEngine.compare spamExec spamOracle .semantic).similarity_score = 1 ∧
      (ComparisonEngine.compare spamExec spamOracle .semantic).comparison_method =
        .semantic := by
  refine ⟨?_, ?_, rfl⟩ <;> decide

/-- **C7 (amended).** Invoking `compare` with a method other than
`exact` does not fail: it falls back to exact comparison and returns the
same `ValidationRecord` as `method=EXACT` except for the recorded
`comparison_method` field.  (`_semantic_similarity` and `_fuzzy_match`
do raise `NotImplementedError`, but are unreachable from `compare`.) -/
theorem compare_falls_back_to_exact (execution : ExecutionRecord)
    (oracle_result : OracleResult) (method : ComparisonMethod) :
    ComparisonEngine.compare execution oracle_result method =
      { ComparisonEngine.compare execution oracle_result .exact with
          comparison_method := method } := by
  cases method <;> rfl

/-- **C8.** Under EXACT comparison both sides are normalized by the same
`strip().lower()`; two outputs equal after normalization (in particular
any `compare(x, x)` and any case/surrounding-whitespace variants) match
with similarity 1.0, and outputs that differ after normalization do not
match and get similarity 0.0. -/
theorem compare_exact_normalization (execution : ExecutionRecord)
    (oracle_result : OracleResult) :
    (normalizeOutput (extractOutput execution.output_data) =
        normalizeOutput oracle_result.output →
      (ComparisonEngine.compare execution oracle_result .exact).match_ = true ∧
        (ComparisonEngine.compare execution oracle_result .exact).similarity_score = 1) ∧
    (normalizeOutput (extractOutput execution.output_data) ≠
        normalizeOutput oracle_result.output →
      (ComparisonEngine.compare execution oracle_result .exact).match_ = false ∧
        (ComparisonEngine.compare execution oracle_result .exact).similarity_score = 0) := by
  unfold ComparisonEngine.compare
  constructor
  · intro h
    simp [exactMatch, h]
  · intro h
    simp [exactMatch, h]

/-- An execution whose extracted output is a case/whitespace variant of
the oracle's. -/
def spamExecVariant : ExecutionRecord :=
  { spamExec with output_data := some [("result", .str "  SPAM ")] }

/-- An oracle result with output "ham". -/
def hamOracle : OracleResult :=
  { output := "ham", cost := 1 / 100, latency_ms := 250 }

/-- Witness for C8: "  SPAM " matches "spam" with similarity 1, and
"spam" against "ham" has similarity 0. -/
theorem compare_exact_normalization_witness :
    ((ComparisonEngine.compare spamExecVariant spamOracle .exact).match_ = true ∧
      (ComparisonEngine.compare spamExecVariant spamOracle .exact).similarity_score = 1) ∧
    ((ComparisonEngine.compare spamExec hamOracle .exact).match_ = false ∧
      (ComparisonEngine.compare spamExec hamOracle .exact).similarity_score = 0) :=
  ⟨(compare_exact_normalization spamExecVariant spamOracle).1 (by decide),
   (compare_exact_normalization spamExec hamOracle).2 (by decide)⟩

/-- Reattaching the code to the dumped metadata reproduces the artifact
(structure eta). -/
theorem rebuild_metadataOf (a : ProgramArtifact) :
    rebuildArtifact (metadataOf a) a.code = a := rfl

/-- **C9.** The artifact store round-trips and overwrites idempotently:
storing then retrieving the same version reproduces the artifact
(identical code text, equivalent metadata), and storing the same
task+version twice then reading yields exactly the second write's
content — code and metadata wholly replaced, never merged. -/
theorem artifactCache_roundtrip_overwrite (fsys : ArtifactCache)
    (task_id : String) (a b : ProgramArtifact) :
    ((fsys.store_artifact task_id a).get_artifact task_id a.version = some a) ∧
    (a.version = b.version →
      ((fsys.store_artifact task_id a).store_artifact task_id b).get_artifact
        task_id b.version = some b) := by
  constructor
  · simp [ArtifactCache.store_artifact, ArtifactCache.get_artifact, List.lookup,
      rebuild_metadataOf]
  · intro hv
    simp [ArtifactCache.store_artifact, ArtifactCache.get_artifact, List.lookup,
      rebuild_metadataOf]

/-- A second artifact sharing `progEx`'s task and version but with
different code and metadata. -/
def progEx2 : ProgramArtifact :=
  { progEx with
    code := "def classify(text): return 1"
    confidence_score := 9 / 10
    status := "validated" }

/-- Witness for C9: round-trip and second-write-wins on a concrete
store. -/
theorem artifactCache_roundtrip_overwrite_witness :
    ((({ entries := [] } : ArtifactCache).store_artifact "task-1" progEx).get_artifact
        "task-1" progEx.version = some progEx) ∧
      ((({ entries := [] } : ArtifactCache).store_artifact "task-1" progEx).store_artifact
          "task-1" progEx2).get_artifact "task-1" progEx2.version = some progEx2 :=
  ⟨(artifactCache_roundtrip_overwrite { entries := [] } "task-1" progEx progEx2).1,
   (artifactCache_roundtrip_overwrite { entries := [] } "task-1" progEx progEx2).2 rfl⟩

/-! ## Helper lemmas: analytics -/

theorem successLatencies_append_nonsuccess (rows : List LogRow) (r : LogRow)
    (hr : r.status ≠ "success") :
    successLatencies (rows ++ [r]) = successLatencies rows := by
  unfold successLatencies
  rw [List.filterMap_append]
  simp [hr]

theorem generate_latency_fields (date : String) (rows : List LogRow)
    (h : rows.isEmpty = false) :
    (DatasetManager.generateDailyAnalytics date rows).avg_latency_ms =
        (latencyStatsOf (successLatencies rows)).1 ∧
      (DatasetManager.generateDailyAnalytics date rows).p50_latency_ms =
        (latencyStatsOf (successLatencies rows)).2.1 ∧
      (DatasetManager.generateDailyAnalytics date rows).p99_latency_ms =
        (latencyStatsOf (successLatencies rows)).2.2 := by
  unfold DatasetManager.generateDailyAnalytics
  simp [h]

theorem floor_frac_lt (N : Nat) (p : ℚ) (hN : 0 < N) (hp0 : 0 ≤ p) (hp1 : p < 1) :
    Int.toNat (Rat.floor ((N : ℚ) * p)) < N := by
  rw [ratFloor_eq_floor]
  have hlt : ⌊(N : ℚ) * p⌋ < (N : ℤ) := by
    rw [Int.floor_lt]
    push_cast
    calc (N : ℚ) * p < (N : ℚ) * 1 := by
          apply mul_lt_mul_of_pos_left hp1
          exact_mod_cast hN
      _ = (N : ℚ) := mul_one _
  have hge : (0 : ℤ) ≤ ⌊(N : ℚ) * p⌋ := by
    apply Int.floor_nonneg.mpr
    positivity
  omega

/-- **C10.** Daily analytics are a pure function of the day's parsed
log: on an empty log every field is zero (no exception); the latency
statistics (mean, p50, p99) are computed over successful executions
only — appending a non-`success` row never changes them; and for a
nonempty successful-latency list each percentile is the element at
index `floor(N * p)` of the ascending sort (an always-in-bounds index),
with the mean being sum over count. -/
theorem generateDailyAnalytics_spec (date : String) (rows : List LogRow) :
    (rows = [] → DatasetManager.generateDailyAnalytics date rows = zeroAnalytics date) ∧
    (∀ r, r.status ≠ "success" →
      (DatasetManager.generateDailyAnalytics date (rows ++ [r])).avg_latency_ms =
          (DatasetManager.generateDailyAnalytics date rows).avg_latency_ms ∧
        (DatasetManager.generateDailyAnalytics date (rows ++ [r])).p50_latency_ms =
          (DatasetManager.generateDailyAnalytics date rows).p50_latency_ms ∧
        (DatasetManager.generateDailyAnalytics date (rows ++ [r])).p99_latency_ms =
          (DatasetManager.generateDailyAnalytics date rows).p99_latency_ms) ∧
    (successLatencies rows ≠ [] →
      (DatasetManager.generateDailyAnalytics date rows).avg_latency_ms =
          ratSum (successLatencies rows) / ((successLatencies rows).length : ℚ) ∧
        (DatasetManager.generateDailyAnalytics date rows).p50_latency_ms =
          percentileAt ((successLatencies rows).insertionSort (· ≤ ·)) (1 / 2) ∧
        (DatasetManager.generateDailyAnalytics date rows).p99_latency_ms =
          percentileAt ((successLatencies rows).insertionSort (· ≤ ·)) (99 / 100) ∧
        Int.toNat (Rat.floor (((successLatencies rows).length : ℚ) * (99 / 100))) <
          (successLatencies rows).length) := by
  refine ⟨?_, ?_, ?_⟩
  · intro h
    subst h
    simp [DatasetManager.generateDailyAnalytics]
  · intro r hr
    have hL := successLatencies_append_nonsuccess rows r hr
    have hne : (rows ++ [r]).isEmpty = false := by
      cases rows <;> simp
    obtain ⟨ha1, hp1, hq1⟩ := generate_latency_fields date (rows ++ [r]) hne
    cases hre : rows.isEmpty with
    | true =>
      have hrows : rows = [] := List.isEmpty_iff.mp hre
      subst hrows
      have hLr : successLatencies [r] = [] := by simpa using hL
      rw [ha1, hp1, hq1]
      simp [hLr, latencyStatsOf, DatasetManager.generateDailyAnalytics, zeroAnalytics]
    | false =>
      obtain ⟨ha2, hp2, hq2⟩ := generate_latency_fields date rows hre
      rw [ha1, hp1, hq1, ha2, hp2, hq2, hL]
      exact ⟨rfl, rfl, rfl⟩
  · intro hne
    have hre : rows.isEmpty = false := by
      cases rows with
      | nil => simp [successLatencies] at hne
      | cons a l => simp
    obtain ⟨ha, hp, hq⟩ := generate_latency_fields date rows hre
    have hLe : (successLatencies rows).isEmpty = false := by
      simpa [List.isEmpty_iff] using hne
    have hstats : latencyStatsOf (successLatencies rows) =
        (ratSum (successLatencies rows) / ((successLatencies rows).length : ℚ),
         percentileAt ((successLatencies rows).insertionSort (· ≤ ·)) (1 / 2),
         percentileAt ((successLatencies rows).insertionSort (· ≤ ·)) (99 / 100)) := by
      unfold latencyStatsOf
      rw [hLe]
      simp
    refine ⟨?_, ?_, ?_, ?_⟩
    · rw [ha, hstats]
    · rw [hp, hstats]
    · rw [hq, hstats]
    · apply floor_frac_lt
      · simpa [List.length_pos] using hne
      · norm_num
      · norm_num

/-- Concrete log rows: two successful with latencies, one failed. -/
def logRowsEx : List LogRow :=
  [{ status := "success", latency_ms := some 10, sampled_for_validation := false },
   { status := "success", latency_ms := some 30, sampled_for_validation := true },
   { status := "error", latency_ms := none, sampled_for_validation := false }]

/-- Witness for C10: empty-log zeros, and the percentile/mean equations
on a concrete log. -/
theorem generateDailyAnalytics_spec_witness :
    (DatasetManager.generateDailyAnalytics "2025-01-01" [] =
      zeroAnalytics "2025-01-01") ∧
    (DatasetManager.generateDailyAnalytics "2025-01-01" logRowsEx).p99_latency_ms =
      percentileAt ((successLatencies logRowsEx).insertionSort (· ≤ ·)) (99 / 100) ∧
    (DatasetManager.generateDailyAnalytics "2025-01-01"
        (logRowsEx ++
          [{ status := "timeout", latency_ms := some 999, sampled_for_validation := false }])).p50_latency_ms =
      (DatasetManager.generateDailyAnalytics "2025-01-01" logRowsEx).p50_latency_ms :=
  ⟨(generateDailyAnalytics_spec "2025-01-01" []).1 rfl,
   ((generateDailyAnalytics_spec "2025-01-01" logRowsEx).2.2 (by decide)).2.2.1,
   ((generateDailyAnalytics_spec "2025-01-01" logRowsEx).2.1
     { status := "timeout", latency_ms := some 999, sampled_for_validation := false }
     (by decide)).2.1⟩

end Loopai

